import Mathlib

/-!
# CoAPNetwork.c : transport dispatch of the CoAP network layer

A shallow embedding of `src/packages/iot-coap-c/CoAPNetwork.c`.

* The HAL (`HAL_UDP_*`, `HAL_DTLSSession_*`) is the environment: a record of
  state transformers over an arbitrary environment state.  Every call the C
  code makes to it is appended to a trace, so that "is called exactly once
  with these arguments" is a statement about the trace.
* `unsigned int` / `int` values are `Nat` / `Int`; the conversions the C code
  performs between them are the explicit functions `to_uint` and `to_int`.
* Pointers to transport objects are machine words read as signed integers:
  `NULL` is `0`, `(void *)-1` is `-1`.
* Byte buffers are passed by value as lists of bytes; a callee that writes
  through the pointer returns the new contents.
-/

namespace CoAPNetwork

/-! ## Data model -/

/-- A `void *` value, read as a signed machine word. -/
abbrev Ptr := Int

/-- The null pointer. -/
def NULL : Ptr := 0

/-- The C expression `(void *)-1`. -/
def PTR_MINUS_ONE : Ptr := -1

/-- Modelled from the spec: the enum `coap_endpoint_type` is declared in the absent header
`CoAPNetwork.h`; the spec gives it exactly two kinds, Insecure and Secure. -/
inductive coap_endpoint_type
  | COAP_ENDPOINT_NOSEC
  | COAP_ENDPOINT_DTLS
deriving DecidableEq, Repr

open coap_endpoint_type

/-- Modelled from the spec: `coap_network_t` is declared in the absent header `CoAPNetwork.h`;
its members are the three the source accesses.  `socket_id` is never read or written by
this file, only its address is taken. -/
structure coap_network_t where
  socket_id : Int
  ep_type : coap_endpoint_type
  context : Ptr
deriving DecidableEq, Repr

/-- Modelled from the spec: `coap_network_init_t` is declared in the absent header
`CoAPNetwork.h`; kind, host, port and trust-anchor material.  The two C strings are
passed by contents, `none` being a null pointer. -/
structure coap_network_init_t where
  ep_type : coap_endpoint_type
  p_ca_cert_pem : Option String
  p_host : Option String
  port : Nat
deriving DecidableEq, Repr

/-- Modelled from the spec: `coap_dtls_options_t` is declared in the absent header
`iot_import_dtls.h`.  The three members the source assigns, and `other`: the bytes of
every remaining member of the structure. -/
structure coap_dtls_options_t where
  p_ca_cert_pem : Option String
  p_host : Option String
  port : Nat
  other : List Nat
deriving DecidableEq, Repr

/-- Constants, macros and layout facts that the source takes from absent headers
(`CoAPExport.h`, `iot_import_dtls.h`, `CoAPNetwork.h`) and from the build. -/
structure Consts where
  COAP_DTLS_SUPPORT : Bool
  COAP_SUCCESS : Nat
  COAP_ERROR_INVALID_PARAM : Nat
  COAP_ERROR_NET_INIT_FAILED : Nat
  COAP_ERROR_WRITE_FAILED : Nat
  COAP_ERROR_READ_FAILED : Nat
  DTLS_SUCCESS : Nat
  DTLS_PEER_CLOSE_NOTIFY : Nat
  DTLS_FATAL_ALERT_MESSAGE : Nat
  COAP_MSG_MAX_PDU_LEN : Nat
  offsetof_socket_id : Int
  offsetof_context : Int
  sizeof_dtls_options_other : Nat
deriving DecidableEq, Repr

/-- One call into the HAL, with the arguments it received.  Buffers are recorded with the
contents they had on entry. -/
inductive Event
  | HAL_UDP_create (host : Option String) (port : Nat)
  | HAL_UDP_close (p_socket : Ptr)
  | HAL_UDP_write (p_socket : Ptr) (p_data : List Nat) (datalen : Nat)
  | HAL_UDP_readTimeout (p_socket : Ptr) (p_data : List Nat) (datalen : Nat) (timeout : Nat)
  | HAL_DTLSSession_create (p_options : coap_dtls_options_t)
  | HAL_DTLSSession_free (context : Ptr)
  | HAL_DTLSSession_read (context : Ptr) (p_data : List Nat) (datalen : Nat) (timeout : Nat)
  | HAL_DTLSSession_write (context : Ptr) (p_data : List Nat) (datalen : Nat)
deriving DecidableEq, Repr

/-- The environment behind the HAL, over its own state `σ`.  Results are listed in the
order: return value, then the new contents of each object written through a pointer. -/
structure HAL (σ : Type) where
  HAL_UDP_create : Option String → Nat → σ → Ptr × σ
  HAL_UDP_close : Ptr → σ → σ
  HAL_UDP_write : Ptr → List Nat → Nat → σ → Int × σ
  HAL_UDP_readTimeout : Ptr → List Nat → Nat → Nat → σ → (Int × List Nat) × σ
  HAL_DTLSSession_create : coap_dtls_options_t → σ → Ptr × σ
  HAL_DTLSSession_free : Ptr → σ → σ
  HAL_DTLSSession_read : Ptr → List Nat → Nat → Nat → σ → (Nat × List Nat × Nat) × σ
  HAL_DTLSSession_write : Ptr → List Nat → Nat → σ → (Nat × Nat) × σ

/-- Program state: the environment, the HAL calls made so far (oldest first), and the
`coap_network_t` objects in memory, by address. -/
structure World (σ : Type) where
  hal : σ
  trace : List Event
  net : Ptr → coap_network_t

/-! ## Machine arithmetic and memory primitives -/

/-- Conversion to `unsigned int` (32 bits). -/
def to_uint (i : Int) : Nat := (i % 2 ^ 32).toNat

/-- Conversion of an `unsigned int` value to `int` (32 bits, two's complement). -/
def to_int (n : Nat) : Int :=
  if n % 2 ^ 32 < 2 ^ 31 then ((n % 2 ^ 32 : Nat) : Int) else ((n % 2 ^ 32 : Nat) : Int) - 2 ^ 32

/-- The C library call `memset(s, c, n)` on the bytes starting at `s`; C requires
`n ≤ s.length`. -/
def memset (s : List Nat) (ch : Nat) (n : Nat) : List Nat :=
  List.replicate n ch ++ s.drop n

/-- The address `&p_network->socket_id`. -/
def addr_socket_id (c : Consts) (p_network : Ptr) : Ptr := p_network + c.offsetof_socket_id

/-- The address `&p_network->context`. -/
def addr_context (c : Consts) (p_network : Ptr) : Ptr := p_network + c.offsetof_context

/-! ## Calls into the HAL: run the environment and record the call -/

section Calls
variable {σ : Type}

def call_HAL_UDP_create (H : HAL σ) (host : Option String) (port : Nat) (w : World σ) :
    Ptr × World σ :=
  let r := H.HAL_UDP_create host port w.hal
  (r.1, { w with hal := r.2, trace := w.trace ++ [Event.HAL_UDP_create host port] })

def call_HAL_UDP_close (H : HAL σ) (p_socket : Ptr) (w : World σ) : World σ :=
  { w with hal := H.HAL_UDP_close p_socket w.hal,
           trace := w.trace ++ [Event.HAL_UDP_close p_socket] }

def call_HAL_UDP_write (H : HAL σ) (p_socket : Ptr) (p_data : List Nat) (datalen : Nat)
    (w : World σ) : Int × World σ :=
  let r := H.HAL_UDP_write p_socket p_data datalen w.hal
  (r.1, { w with hal := r.2, trace := w.trace ++ [Event.HAL_UDP_write p_socket p_data datalen] })

def call_HAL_UDP_readTimeout (H : HAL σ) (p_socket : Ptr) (p_data : List Nat) (datalen : Nat)
    (timeout : Nat) (w : World σ) : (Int × List Nat) × World σ :=
  let r := H.HAL_UDP_readTimeout p_socket p_data datalen timeout w.hal
  (r.1, { w with hal := r.2,
                 trace := w.trace ++ [Event.HAL_UDP_readTimeout p_socket p_data datalen timeout] })

def call_HAL_DTLSSession_create (H : HAL σ) (p_options : coap_dtls_options_t) (w : World σ) :
    Ptr × World σ :=
  let r := H.HAL_DTLSSession_create p_options w.hal
  (r.1, { w with hal := r.2, trace := w.trace ++ [Event.HAL_DTLSSession_create p_options] })

def call_HAL_DTLSSession_free (H : HAL σ) (context : Ptr) (w : World σ) : World σ :=
  { w with hal := H.HAL_DTLSSession_free context w.hal,
           trace := w.trace ++ [Event.HAL_DTLSSession_free context] }

def call_HAL_DTLSSession_read (H : HAL σ) (context : Ptr) (p_data : List Nat) (datalen : Nat)
    (timeout : Nat) (w : World σ) : (Nat × List Nat × Nat) × World σ :=
  let r := H.HAL_DTLSSession_read context p_data datalen timeout w.hal
  (r.1, { w with hal := r.2,
                 trace := w.trace ++ [Event.HAL_DTLSSession_read context p_data datalen timeout] })

def call_HAL_DTLSSession_write (H : HAL σ) (context : Ptr) (p_data : List Nat) (datalen : Nat)
    (w : World σ) : (Nat × Nat) × World σ :=
  let r := H.HAL_DTLSSession_write context p_data datalen w.hal
  (r.1, { w with hal := r.2,
                 trace := w.trace ++ [Event.HAL_DTLSSession_write context p_data datalen] })

/-! ## The functions of CoAPNetwork.c -/

/-- `static void CoAPNetworkDTLS_freeSession(void *p_session)` (lines 83-87). -/
def CoAPNetworkDTLS_freeSession (H : HAL σ) (p_session : Ptr) (w : World σ) : World σ :=
  call_HAL_DTLSSession_free H p_session w

/-- `CoAPNetworkDTLS_read` (lines 35-64).  Returns the status, the buffer `p_data` and the
in/out length `*p_datalen` after the call.  `read_len` only feeds the trace output. -/
def CoAPNetworkDTLS_read (c : Consts) (H : HAL σ) (p_session : Ptr) (p_data : List Nat)
    (p_datalen : Nat) (timeout : Nat) (w : World σ) : (Nat × List Nat × Nat) × World σ :=
  if NULL ≠ p_session then
    let context := p_session
    let r := call_HAL_DTLSSession_read H context p_data p_datalen timeout w
    let err_code := r.1.1
    let w1 :=
      if c.DTLS_PEER_CLOSE_NOTIFY = err_code ∨ c.DTLS_FATAL_ALERT_MESSAGE = err_code then
        CoAPNetworkDTLS_freeSession H context r.2
      else r.2
    if c.DTLS_SUCCESS = err_code then
      ((c.COAP_SUCCESS, r.1.2.1, r.1.2.2), w1)
    else
      ((c.COAP_ERROR_READ_FAILED, r.1.2.1, r.1.2.2), w1)
  else
    ((c.COAP_ERROR_INVALID_PARAM, p_data, p_datalen), w)

/-- `CoAPNetworkDTLS_write` (lines 66-81).  Returns the status and the in/out length
`*p_datalen` after the call. -/
def CoAPNetworkDTLS_write (c : Consts) (H : HAL σ) (p_session : Ptr) (p_data : List Nat)
    (p_datalen : Nat) (w : World σ) : (Nat × Nat) × World σ :=
  if NULL ≠ p_session then
    let r := call_HAL_DTLSSession_write H p_session p_data p_datalen w
    let err_code := r.1.1
    if c.DTLS_SUCCESS = err_code then
      ((c.COAP_SUCCESS, r.1.2), r.2)
    else
      ((c.COAP_ERROR_WRITE_FAILED, r.1.2), r.2)
  else
    ((c.COAP_ERROR_INVALID_PARAM, p_datalen), w)

/-- `CoAPNetworkDTLS_createSession` (lines 89-103): `memset` over the whole of
`dtls_options` leaves every member zero, then the three members are assigned. -/
def CoAPNetworkDTLS_createSession (c : Consts) (H : HAL σ) (p_host : Option String)
    (port : Nat) (p_ca_cert_pem : Option String) (w : World σ) : Ptr × World σ :=
  let dtls_options : coap_dtls_options_t :=
    { p_ca_cert_pem := none, p_host := none, port := 0,
      other := List.replicate c.sizeof_dtls_options_other 0 }
  let dtls_options := { dtls_options with p_ca_cert_pem := p_ca_cert_pem }
  let dtls_options := { dtls_options with p_host := p_host }
  let dtls_options := { dtls_options with port := port }
  call_HAL_DTLSSession_create H dtls_options w

/-- `CoAPNetwork_write` (lines 107-131).  `rc` is an `int`; the result is `(unsigned int)rc`.
The initial value of `rc` is overwritten on both paths; the in/out length the secure adapter
leaves in `datalen` is not used. -/
def CoAPNetwork_write (c : Consts) (H : HAL σ) (p_network : Ptr) (p_data : List Nat)
    (datalen : Nat) (w : World σ) : Nat × World σ :=
  if c.COAP_DTLS_SUPPORT = true ∧ COAP_ENDPOINT_DTLS = (w.net p_network).ep_type then
    let r := CoAPNetworkDTLS_write c H (w.net p_network).context p_data datalen w
    let rc : Int := to_int r.1.1
    (to_uint rc, r.2)
  else
    let r := call_HAL_UDP_write H (w.net p_network).context p_data datalen w
    let rc : Int := r.1
    let rc : Int := if -1 = rc then to_int c.COAP_ERROR_WRITE_FAILED else to_int c.COAP_SUCCESS
    (to_uint rc, r.2)

/-- `CoAPNetwork_read` (lines 133-153).  `len` is an `unsigned int`; the result is `len`
converted to `int`.  The status `CoAPNetworkDTLS_read` returns is not used.  Returns the
result and the buffer `data` after the call. -/
def CoAPNetwork_read (c : Consts) (H : HAL σ) (network : Ptr) (data : List Nat)
    (datalen : Nat) (timeout : Nat) (w : World σ) : (Int × List Nat) × World σ :=
  if c.COAP_DTLS_SUPPORT = true ∧ COAP_ENDPOINT_DTLS = (w.net network).ep_type then
    let len : Nat := datalen
    let data := memset data 0 datalen
    let r := CoAPNetworkDTLS_read c H (w.net network).context data len timeout w
    let len : Nat := r.1.2.2
    ((to_int len, r.1.2.1), r.2)
  else
    let data := memset data 0 datalen
    let r := call_HAL_UDP_readTimeout H (w.net network).context data c.COAP_MSG_MAX_PDU_LEN
               timeout w
    let len : Nat := to_uint r.1.1
    ((to_int len, r.1.2), r.2)

/-- Store to `p_network->ep_type`. -/
def set_ep_type (p_network : Ptr) (t : coap_endpoint_type) (w : World σ) : World σ :=
  { w with net := Function.update w.net p_network { w.net p_network with ep_type := t } }

/-- Store to `p_network->context`. -/
def set_context (p_network : Ptr) (p : Ptr) (w : World σ) : World σ :=
  { w with net := Function.update w.net p_network { w.net p_network with context := p } }

/-- `CoAPNetwork_init` (lines 155-183).  `p_param` is a pointer to a constant parameter
bundle (`none` when null); `p_network` is the address of the endpoint to fill in. -/
def CoAPNetwork_init (c : Consts) (H : HAL σ) (p_param : Option coap_network_init_t)
    (p_network : Ptr) (w : World σ) : Nat × World σ :=
  let err_code := c.COAP_SUCCESS
  match p_param with
  | none => (c.COAP_ERROR_INVALID_PARAM, w)
  | some param =>
    if NULL = p_network then (c.COAP_ERROR_INVALID_PARAM, w)
    else
      let w1 := set_ep_type p_network param.ep_type w
      let dtlsStep : Option Nat × World σ :=
        if c.COAP_DTLS_SUPPORT = true ∧ COAP_ENDPOINT_DTLS = param.ep_type then
          let r := CoAPNetworkDTLS_createSession c H param.p_host param.port
                     param.p_ca_cert_pem w1
          let w2 := set_context p_network r.1 r.2
          if NULL = (w2.net p_network).context then (some c.COAP_ERROR_NET_INIT_FAILED, w2)
          else (none, w2)
        else (none, w1)
      match dtlsStep with
      | (some e, w2) => (e, w2)
      | (none, w2) =>
        if COAP_ENDPOINT_NOSEC = param.ep_type then
          let r := call_HAL_UDP_create H param.p_host param.port w2
          let w3 := set_context p_network r.1 r.2
          if PTR_MINUS_ONE = (w3.net p_network).context then (c.COAP_ERROR_NET_INIT_FAILED, w3)
          else (err_code, w3)
        else (err_code, w2)

/-- `CoAPNetwork_deinit` (lines 186-194).  Both calls receive the address of a member of
the endpoint object, as the source writes them. -/
def CoAPNetwork_deinit (c : Consts) (H : HAL σ) (p_network : Ptr) (w : World σ) :
    Nat × World σ :=
  let err_code := c.COAP_SUCCESS
  let w1 := call_HAL_UDP_close H (addr_socket_id c p_network) w
  let w2 := if c.COAP_DTLS_SUPPORT = true then
              CoAPNetworkDTLS_freeSession H (addr_context c p_network) w1
            else w1
  (err_code, w2)

end Calls

/-! ## Concrete environments, used to run the model on explicit inputs -/

/-- An instance of the constants: pairwise distinct result and status codes, a maximum PDU
size of 1280, secure support compiled in, `socket_id` the first member of `coap_network_t`
and `context` at offset 8. -/
def sample_consts : Consts :=
  { COAP_DTLS_SUPPORT := true,
    COAP_SUCCESS := 0,
    COAP_ERROR_INVALID_PARAM := 0x101,
    COAP_ERROR_NET_INIT_FAILED := 0x108,
    COAP_ERROR_WRITE_FAILED := 0x10A,
    COAP_ERROR_READ_FAILED := 0x10B,
    DTLS_SUCCESS := 0,
    DTLS_PEER_CLOSE_NOTIFY := 0x1000006,
    DTLS_FATAL_ALERT_MESSAGE := 0x1000005,
    COAP_MSG_MAX_PDU_LEN := 1280,
    offsetof_socket_id := 0,
    offsetof_context := 8,
    sizeof_dtls_options_other := 0 }

/-- A stateless environment with fixed answers: `handle` from both constructors, `rc` from
the datagram write and read, `status` from the secure read and write.  Reads leave the
buffer and the in/out length as they were. -/
def stubHAL (handle : Ptr) (rc : Int) (status : Nat) : HAL Unit :=
  { HAL_UDP_create := fun _ _ s => (handle, s),
    HAL_UDP_close := fun _ s => s,
    HAL_UDP_write := fun _ _ _ s => (rc, s),
    HAL_UDP_readTimeout := fun _ buf _ _ s => ((rc, buf), s),
    HAL_DTLSSession_create := fun _ s => (handle, s),
    HAL_DTLSSession_free := fun _ s => s,
    HAL_DTLSSession_read := fun _ buf len _ s => ((status, buf, len), s),
    HAL_DTLSSession_write := fun _ _ len s => ((status, len), s) }

/-- An environment that records, oldest first, the sessions its free primitive is asked to
release.  Its secure read and write answer `status` and leave buffer and length as they
were; it has no datagram transport. -/
def freeLogHAL (status : Nat) : HAL (List Ptr) :=
  { HAL_UDP_create := fun _ _ s => (PTR_MINUS_ONE, s),
    HAL_UDP_close := fun _ s => s,
    HAL_UDP_write := fun _ _ _ s => (-1, s),
    HAL_UDP_readTimeout := fun _ buf _ _ s => ((-1, buf), s),
    HAL_DTLSSession_create := fun _ s => (NULL, s),
    HAL_DTLSSession_free := fun p s => s ++ [p],
    HAL_DTLSSession_read := fun _ buf len _ s => ((status, buf, len), s),
    HAL_DTLSSession_write := fun _ _ len s => ((status, len), s) }

/-- State of the counting, echoing fake datagram transport. -/
structure FakeState where
  next_socket : Ptr
  open_sockets : List Ptr
  echo : List Nat
deriving DecidableEq, Repr

/-- Modelled from the spec: the counting, echoing fake datagram transport of its testable
properties 1 and 7.  `create` hands out `next_socket` and records it as open,
`close` removes the handle it is given from the open ones, `write` keeps the bytes written
and `read` copies the bytes most recently written to the front of the buffer and returns
their number.  The secure transport is absent: no session is ever created. -/
def fakeHAL : HAL FakeState :=
  { HAL_UDP_create := fun _ _ s =>
      (s.next_socket, { s with next_socket := s.next_socket + 1,
                               open_sockets := s.next_socket :: s.open_sockets }),
    HAL_UDP_close := fun p s => { s with open_sockets := s.open_sockets.erase p },
    HAL_UDP_write := fun _ data n s => (((data.take n).length : Nat), { s with echo := data.take n }),
    HAL_UDP_readTimeout := fun _ buf maxlen _ s =>
      ((((s.echo.take maxlen).length : Nat),
        s.echo.take maxlen ++ buf.drop (s.echo.take maxlen).length), s),
    HAL_DTLSSession_create := fun _ s => (NULL, s),
    HAL_DTLSSession_free := fun _ s => s,
    HAL_DTLSSession_read := fun _ buf len _ s => ((0, buf, len), s),
    HAL_DTLSSession_write := fun _ _ len s => ((0, len), s) }

/-- A world with an empty trace in which every endpoint object is `ep`. -/
def world_of {σ : Type} (s : σ) (ep : coap_network_t) : World σ :=
  { hal := s, trace := [], net := fun _ => ep }

/-- An Insecure endpoint holding the handle 3. -/
def ep_nosec : coap_network_t :=
  { socket_id := 0, ep_type := COAP_ENDPOINT_NOSEC, context := 3 }

/-- A Secure endpoint holding the session 7. -/
def ep_dtls : coap_network_t :=
  { socket_id := 0, ep_type := COAP_ENDPOINT_DTLS, context := 7 }

/-- A Secure endpoint whose stored session is null. -/
def ep_dtls_null : coap_network_t :=
  { socket_id := 0, ep_type := COAP_ENDPOINT_DTLS, context := NULL }

/-- The buffer a read primitive observed on entry, for the two read calls. -/
def Event.readBuffer : Event → Option (List Nat)
  | Event.HAL_UDP_readTimeout _ buf _ _ => some buf
  | Event.HAL_DTLSSession_read _ buf _ _ => some buf
  | _ => none

/-- The scenario of C5: `CoAPNetwork_init` on the endpoint at `p_network`, immediately
followed by `CoAPNetwork_deinit` on the same endpoint.  Returns both results and the final
state. -/
def init_then_deinit {σ : Type} (c : Consts) (H : HAL σ) (param : coap_network_init_t)
    (p_network : Ptr) (w : World σ) : Nat × Nat × World σ :=
  let i := CoAPNetwork_init c H (some param) p_network w
  let d := CoAPNetwork_deinit c H p_network i.2
  (i.1, d.1, d.2)

/-- The scenario of C8: `CoAPNetwork_init`, then `CoAPNetwork_write` of `d`, then
`CoAPNetwork_read` into `buf` with its full capacity, all on the endpoint at `p_network`.
Returns the three results and the buffer after the read. -/
def init_write_read {σ : Type} (c : Consts) (H : HAL σ) (param : coap_network_init_t)
    (p_network : Ptr) (d : List Nat) (buf : List Nat) (timeout : Nat) (w : World σ) :
    Nat × Nat × Int × List Nat :=
  let i := CoAPNetwork_init c H (some param) p_network w
  let wr := CoAPNetwork_write c H p_network d d.length i.2
  let rd := CoAPNetwork_read c H p_network buf buf.length timeout wr.2
  (i.1, wr.1, rd.1.1, rd.1.2)

/-- The Insecure parameter bundle of the spec: host "host", port 5683. -/
def param_host_5683 : coap_network_init_t :=
  { ep_type := COAP_ENDPOINT_NOSEC, p_ca_cert_pem := none, p_host := some "host", port := 5683 }

/-- A fake transport state with nothing open whose next handle is 3. -/
def fake_fresh : FakeState := { next_socket := 3, open_sockets := [], echo := [] }

/-- The state after one `CoAPNetwork_read` on the Secure endpoint at 4096 holding session 7,
during which the secure transport reports PeerCloseNotify. -/
def world_after_peer_close : World Unit :=
  (CoAPNetwork_read sample_consts (stubHAL 7 0 0x1000006) 4096 [9, 9] 2 50
    (world_of () ep_dtls)).2

/-! ## Arithmetic facts -/

theorem to_uint_to_int (n : Nat) (h : n < 2 ^ 32) : to_uint (to_int n) = n := by
  unfold to_uint to_int
  split <;> omega

theorem to_int_to_uint (r : Int) (hlo : -(2 ^ 31) ≤ r) (hhi : r < 2 ^ 31) :
    to_int (to_uint r) = r := by
  unfold to_uint to_int
  split <;> omega

theorem to_int_nonneg_iff (n : Nat) : 0 ≤ to_int n ↔ n % 2 ^ 32 < 2 ^ 31 := by
  unfold to_int
  split <;> omega

/-! ## Facts about the secure read adapter and the read dispatch -/

/-- The calls made by `CoAPNetworkDTLS_read` on a session: the secure read, then the free
when the status is one of the two teardown statuses. -/
theorem dtls_read_trace {σ : Type} (c : Consts) (H : HAL σ) (p_session : Ptr)
    (p_data : List Nat) (p_datalen : Nat) (timeout : Nat) (w : World σ)
    (hs : p_session ≠ NULL) :
    (CoAPNetworkDTLS_read c H p_session p_data p_datalen timeout w).2.trace
      = w.trace ++ Event.HAL_DTLSSession_read p_session p_data p_datalen timeout ::
          (if c.DTLS_PEER_CLOSE_NOTIFY
                = (H.HAL_DTLSSession_read p_session p_data p_datalen timeout w.hal).1.1 ∨
              c.DTLS_FATAL_ALERT_MESSAGE
                = (H.HAL_DTLSSession_read p_session p_data p_datalen timeout w.hal).1.1
            then [Event.HAL_DTLSSession_free p_session] else []) := by
  have hs1 : NULL ≠ p_session := fun h => hs h.symm
  simp only [CoAPNetworkDTLS_read, if_pos hs1, call_HAL_DTLSSession_read,
    CoAPNetworkDTLS_freeSession, call_HAL_DTLSSession_free]
  split <;> split <;> simp

/-- The buffer and in/out length `CoAPNetworkDTLS_read` hands back on a session are the ones
the secure read left. -/
theorem dtls_read_out {σ : Type} (c : Consts) (H : HAL σ) (p_session : Ptr)
    (p_data : List Nat) (p_datalen : Nat) (timeout : Nat) (w : World σ)
    (hs : p_session ≠ NULL) :
    (CoAPNetworkDTLS_read c H p_session p_data p_datalen timeout w).1.2
      = (H.HAL_DTLSSession_read p_session p_data p_datalen timeout w.hal).1.2 := by
  have hs1 : NULL ≠ p_session := fun h => hs h.symm
  simp only [CoAPNetworkDTLS_read, if_pos hs1, call_HAL_DTLSSession_read]
  split <;> rfl

/-- `CoAPNetworkDTLS_read` writes to no endpoint object. -/
theorem dtls_read_net {σ : Type} (c : Consts) (H : HAL σ) (p_session : Ptr)
    (p_data : List Nat) (p_datalen : Nat) (timeout : Nat) (w : World σ) :
    (CoAPNetworkDTLS_read c H p_session p_data p_datalen timeout w).2.net = w.net := by
  by_cases hs1 : NULL ≠ p_session
  · simp only [CoAPNetworkDTLS_read, if_pos hs1, call_HAL_DTLSSession_read,
      CoAPNetworkDTLS_freeSession, call_HAL_DTLSSession_free]
    split <;> split <;> rfl
  · simp only [CoAPNetworkDTLS_read, if_neg hs1]

/-- `CoAPNetworkDTLS_read` on a null session does nothing. -/
theorem dtls_read_null {σ : Type} (c : Consts) (H : HAL σ)
    (p_data : List Nat) (p_datalen : Nat) (timeout : Nat) (w : World σ) :
    CoAPNetworkDTLS_read c H NULL p_data p_datalen timeout w
      = ((c.COAP_ERROR_INVALID_PARAM, p_data, p_datalen), w) := by
  simp [CoAPNetworkDTLS_read]

/-- `CoAPNetwork_read` on the secure path. -/
theorem read_secure_eq {σ : Type} (c : Consts) (H : HAL σ) (network : Ptr)
    (data : List Nat) (datalen : Nat) (timeout : Nat) (w : World σ)
    (hb : c.COAP_DTLS_SUPPORT = true ∧ COAP_ENDPOINT_DTLS = (w.net network).ep_type) :
    CoAPNetwork_read c H network data datalen timeout w
      = ((to_int (CoAPNetworkDTLS_read c H (w.net network).context (memset data 0 datalen)
                    datalen timeout w).1.2.2,
          (CoAPNetworkDTLS_read c H (w.net network).context (memset data 0 datalen)
                    datalen timeout w).1.2.1),
         (CoAPNetworkDTLS_read c H (w.net network).context (memset data 0 datalen)
                    datalen timeout w).2) := by
  simp only [CoAPNetwork_read, if_pos hb]

/-- `CoAPNetwork_read` on the datagram path. -/
theorem read_insecure_eq {σ : Type} (c : Consts) (H : HAL σ) (network : Ptr)
    (data : List Nat) (datalen : Nat) (timeout : Nat) (w : World σ)
    (hb : ¬ (c.COAP_DTLS_SUPPORT = true ∧ COAP_ENDPOINT_DTLS = (w.net network).ep_type)) :
    CoAPNetwork_read c H network data datalen timeout w
      = ((to_int (to_uint (H.HAL_UDP_readTimeout (w.net network).context
                    (memset data 0 datalen) c.COAP_MSG_MAX_PDU_LEN timeout w.hal).1.1),
          (H.HAL_UDP_readTimeout (w.net network).context
                    (memset data 0 datalen) c.COAP_MSG_MAX_PDU_LEN timeout w.hal).1.2),
         { w with
             hal := (H.HAL_UDP_readTimeout (w.net network).context
                    (memset data 0 datalen) c.COAP_MSG_MAX_PDU_LEN timeout w.hal).2,
             trace := w.trace ++ [Event.HAL_UDP_readTimeout (w.net network).context
                    (memset data 0 datalen) c.COAP_MSG_MAX_PDU_LEN timeout] }) := by
  simp only [CoAPNetwork_read, if_neg hb, call_HAL_UDP_readTimeout]

/-- `memset` with zero over the whole of a buffer. -/
theorem memset_zero_all (data : List Nat) (datalen : Nat) (hcap : data.length = datalen) :
    memset data 0 datalen = List.replicate datalen 0 := by
  simp [memset, ← hcap]

/-- The calls made by `CoAPNetwork_write` on the secure path with a session: one secure
write with that session. -/
theorem write_secure_trace {σ : Type} (c : Consts) (H : HAL σ) (p_network : Ptr)
    (p_data : List Nat) (datalen : Nat) (w : World σ)
    (hb : c.COAP_DTLS_SUPPORT = true ∧ COAP_ENDPOINT_DTLS = (w.net p_network).ep_type)
    (hs : (w.net p_network).context ≠ NULL) :
    (CoAPNetwork_write c H p_network p_data datalen w).2.trace
      = w.trace ++ [Event.HAL_DTLSSession_write (w.net p_network).context p_data datalen] := by
  have hs1 : NULL ≠ (w.net p_network).context := fun h => hs h.symm
  simp only [CoAPNetwork_write, if_pos hb, CoAPNetworkDTLS_write, if_pos hs1,
    call_HAL_DTLSSession_write]
  split <;> rfl

/-- `CoAPNetwork_write` on the datagram path. -/
theorem write_insecure_eq {σ : Type} (c : Consts) (H : HAL σ) (p_network : Ptr)
    (p_data : List Nat) (datalen : Nat) (w : World σ)
    (hb : ¬ (c.COAP_DTLS_SUPPORT = true ∧ COAP_ENDPOINT_DTLS = (w.net p_network).ep_type)) :
    CoAPNetwork_write c H p_network p_data datalen w
      = (to_uint (if -1 = (H.HAL_UDP_write (w.net p_network).context p_data datalen w.hal).1
                  then to_int c.COAP_ERROR_WRITE_FAILED else to_int c.COAP_SUCCESS),
         { w with
             hal := (H.HAL_UDP_write (w.net p_network).context p_data datalen w.hal).2,
             trace := w.trace
               ++ [Event.HAL_UDP_write (w.net p_network).context p_data datalen] }) := by
  simp only [CoAPNetwork_write, if_neg hb, call_HAL_UDP_write]

/-- `CoAPNetwork_init` of kind Insecure on a non-null endpoint. -/
theorem init_insecure_eq {σ : Type} (c : Consts) (H : HAL σ) (param : coap_network_init_t)
    (p_network : Ptr) (w : World σ)
    (hp : p_network ≠ NULL) (hkind : param.ep_type = COAP_ENDPOINT_NOSEC) :
    CoAPNetwork_init c H (some param) p_network w
      = (if PTR_MINUS_ONE = (H.HAL_UDP_create param.p_host param.port w.hal).1
          then c.COAP_ERROR_NET_INIT_FAILED else c.COAP_SUCCESS,
         { hal := (H.HAL_UDP_create param.p_host param.port w.hal).2,
           trace := w.trace ++ [Event.HAL_UDP_create param.p_host param.port],
           net := Function.update w.net p_network
             { socket_id := (w.net p_network).socket_id, ep_type := COAP_ENDPOINT_NOSEC,
               context := (H.HAL_UDP_create param.p_host param.port w.hal).1 } }) := by
  have hp1 : ¬ (NULL = p_network) := fun h => hp h.symm
  have hb : ¬ (c.COAP_DTLS_SUPPORT = true ∧ COAP_ENDPOINT_DTLS = param.ep_type) := by
    rw [hkind]; rintro ⟨_, h⟩; cases h
  have hn : COAP_ENDPOINT_NOSEC = param.ep_type := hkind.symm
  simp only [CoAPNetwork_init, if_neg hp1, if_neg hb, if_pos hn, call_HAL_UDP_create,
    set_context, set_ep_type, Function.update_same, Function.update_idem]
  rw [hkind]
  split <;> rfl

/-- `CoAPNetwork_deinit` returns Success and passes member addresses to the HAL: the close
primitive receives the address of `socket_id` and, with secure support, the session free
receives the address of `context`.  No value stored in the endpoint reaches either call. -/
theorem deinit_trace {σ : Type} (c : Consts) (H : HAL σ) (p_network : Ptr) (w : World σ) :
    (CoAPNetwork_deinit c H p_network w).1 = c.COAP_SUCCESS ∧
    (CoAPNetwork_deinit c H p_network w).2.trace
      = w.trace ++ Event.HAL_UDP_close (p_network + c.offsetof_socket_id) ::
          (if c.COAP_DTLS_SUPPORT = true
            then [Event.HAL_DTLSSession_free (p_network + c.offsetof_context)] else []) := by
  refine ⟨rfl, ?_⟩
  simp only [CoAPNetwork_deinit, call_HAL_UDP_close, CoAPNetworkDTLS_freeSession,
    call_HAL_DTLSSession_free, addr_socket_id, addr_context]
  split <;> simp

/-! ## Claims -/

/-- C1: on an Insecure endpoint CoAPNetwork_write returns WriteFailed exactly when the datagram
write primitive returns -1 and Success for every other result, and the primitive is called
exactly once, with the handle stored in the endpoint and the data and length unchanged. -/
theorem C1_write_insecure {σ : Type} (c : Consts) (H : HAL σ) (p_network : Ptr)
    (p_data : List Nat) (datalen : Nat) (w : World σ)
    (hkind : (w.net p_network).ep_type = COAP_ENDPOINT_NOSEC)
    (hs : c.COAP_SUCCESS < 2 ^ 32) (hf : c.COAP_ERROR_WRITE_FAILED < 2 ^ 32)
    (hne : c.COAP_ERROR_WRITE_FAILED ≠ c.COAP_SUCCESS) :
    ((CoAPNetwork_write c H p_network p_data datalen w).1 = c.COAP_ERROR_WRITE_FAILED ↔
      (H.HAL_UDP_write (w.net p_network).context p_data datalen w.hal).1 = -1) ∧
    ((H.HAL_UDP_write (w.net p_network).context p_data datalen w.hal).1 ≠ -1 →
      (CoAPNetwork_write c H p_network p_data datalen w).1 = c.COAP_SUCCESS) ∧
    (CoAPNetwork_write c H p_network p_data datalen w).2.trace =
      w.trace ++ [Event.HAL_UDP_write (w.net p_network).context p_data datalen] ∧
    (CoAPNetwork_write c H p_network p_data datalen w).2.hal =
      (H.HAL_UDP_write (w.net p_network).context p_data datalen w.hal).2 := by
  have hbranch : ¬ (c.COAP_DTLS_SUPPORT = true ∧
      COAP_ENDPOINT_DTLS = (w.net p_network).ep_type) := by
    rw [hkind]; rintro ⟨_, h⟩; cases h
  simp only [CoAPNetwork_write, if_neg hbranch, call_HAL_UDP_write]
  by_cases hr : (H.HAL_UDP_write (w.net p_network).context p_data datalen w.hal).1 = -1
  · have h1 : (-1 : Int) = (H.HAL_UDP_write (w.net p_network).context p_data datalen w.hal).1 :=
      hr.symm
    simp [if_pos h1, to_uint_to_int _ hf, hr]
  · have h1 : ¬ ((-1 : Int) = (H.HAL_UDP_write (w.net p_network).context p_data datalen w.hal).1) :=
      fun h => hr h.symm
    simp [if_neg h1, to_uint_to_int _ hs, hr, Ne.symm hne]

/-- Witness for C1: the stub transport answering -1 on an Insecure endpoint. -/
theorem C1_write_insecure_witness :
    ((world_of () ep_nosec).net 4096).ep_type = COAP_ENDPOINT_NOSEC ∧
    sample_consts.COAP_SUCCESS < 2 ^ 32 ∧ sample_consts.COAP_ERROR_WRITE_FAILED < 2 ^ 32 ∧
    sample_consts.COAP_ERROR_WRITE_FAILED ≠ sample_consts.COAP_SUCCESS ∧
    (CoAPNetwork_write sample_consts (stubHAL 3 (-1) 0) 4096 [1, 2] 2 (world_of () ep_nosec)).1
      = sample_consts.COAP_ERROR_WRITE_FAILED :=
  ⟨rfl, by decide, by decide, by decide,
   ((C1_write_insecure sample_consts (stubHAL 3 (-1) 0) 4096 [1, 2] 2 (world_of () ep_nosec)
      rfl (by decide) (by decide) (by decide)).1).2 rfl⟩

/-- C3: CoAPNetwork_init with a null parameter bundle or a null output endpoint returns
InvalidParameter whatever the other argument is; no HAL call is made and no endpoint object
in memory is changed (the whole program state is the one it was called in). -/
theorem C3_init_null_argument {σ : Type} (c : Consts) (H : HAL σ)
    (p_param : Option coap_network_init_t) (p_network : Ptr) (w : World σ)
    (hnull : p_param = none ∨ p_network = NULL) :
    CoAPNetwork_init c H p_param p_network w = (c.COAP_ERROR_INVALID_PARAM, w) := by
  cases p_param with
  | none => rfl
  | some param =>
    rcases hnull with h | h
    · cases h
    · subst h
      simp [CoAPNetwork_init]

/-- Witness for C3: a Secure parameter bundle with a null output endpoint. -/
theorem C3_init_null_argument_witness :
    ((some { ep_type := COAP_ENDPOINT_DTLS, p_ca_cert_pem := some "ca", p_host := some "host",
             port := 5684 } : Option coap_network_init_t) = none ∨ (NULL : Ptr) = NULL) ∧
    CoAPNetwork_init sample_consts (stubHAL 7 0 0)
        (some { ep_type := COAP_ENDPOINT_DTLS, p_ca_cert_pem := some "ca", p_host := some "host",
                port := 5684 }) NULL (world_of () ep_nosec)
      = (sample_consts.COAP_ERROR_INVALID_PARAM, world_of () ep_nosec) :=
  ⟨Or.inr rfl, C3_init_null_argument sample_consts (stubHAL 7 0 0) _ NULL (world_of () ep_nosec)
    (Or.inr rfl)⟩

/-- C4: for a non-null session CoAPNetworkDTLS_read calls the secure read once and then, on
status PeerCloseNotify or FatalAlertMessage, the session-free primitive exactly once on that
same session and returns ReadFailed; on status Success it returns Success and frees nothing;
on every other status it returns ReadFailed and frees nothing.  For a null session it returns
InvalidParameter and calls nothing.  Each call is stated both as the entry it adds to the
trace and as its effect on the environment: after a teardown the environment is the one the
free primitive produced, applied to that session in the state the secure read left; without
a teardown it is the state the secure read left. -/
theorem C4_secure_read_teardown {σ : Type} (c : Consts) (H : HAL σ) (p_session : Ptr)
    (p_data : List Nat) (p_datalen : Nat) (timeout : Nat) (w : World σ)
    (hclose : c.DTLS_PEER_CLOSE_NOTIFY ≠ c.DTLS_SUCCESS)
    (hfatal : c.DTLS_FATAL_ALERT_MESSAGE ≠ c.DTLS_SUCCESS) :
    (p_session ≠ NULL →
      ((H.HAL_DTLSSession_read p_session p_data p_datalen timeout w.hal).1.1
            = c.DTLS_PEER_CLOSE_NOTIFY ∨
        (H.HAL_DTLSSession_read p_session p_data p_datalen timeout w.hal).1.1
            = c.DTLS_FATAL_ALERT_MESSAGE →
        (CoAPNetworkDTLS_read c H p_session p_data p_datalen timeout w).1.1
            = c.COAP_ERROR_READ_FAILED ∧
        (CoAPNetworkDTLS_read c H p_session p_data p_datalen timeout w).2.trace
            = w.trace ++ [Event.HAL_DTLSSession_read p_session p_data p_datalen timeout,
                          Event.HAL_DTLSSession_free p_session] ∧
        (CoAPNetworkDTLS_read c H p_session p_data p_datalen timeout w).2.hal
            = H.HAL_DTLSSession_free p_session
                (H.HAL_DTLSSession_read p_session p_data p_datalen timeout w.hal).2 ∧
        (CoAPNetworkDTLS_read c H p_session p_data p_datalen timeout w).2.net = w.net) ∧
      ((H.HAL_DTLSSession_read p_session p_data p_datalen timeout w.hal).1.1 = c.DTLS_SUCCESS →
        (CoAPNetworkDTLS_read c H p_session p_data p_datalen timeout w).1.1 = c.COAP_SUCCESS ∧
        (CoAPNetworkDTLS_read c H p_session p_data p_datalen timeout w).2.trace
            = w.trace ++ [Event.HAL_DTLSSession_read p_session p_data p_datalen timeout] ∧
        (CoAPNetworkDTLS_read c H p_session p_data p_datalen timeout w).2.hal
            = (H.HAL_DTLSSession_read p_session p_data p_datalen timeout w.hal).2 ∧
        (CoAPNetworkDTLS_read c H p_session p_data p_datalen timeout w).2.net = w.net) ∧
      ((H.HAL_DTLSSession_read p_session p_data p_datalen timeout w.hal).1.1 ≠ c.DTLS_SUCCESS →
        (H.HAL_DTLSSession_read p_session p_data p_datalen timeout w.hal).1.1
            ≠ c.DTLS_PEER_CLOSE_NOTIFY →
        (H.HAL_DTLSSession_read p_session p_data p_datalen timeout w.hal).1.1
            ≠ c.DTLS_FATAL_ALERT_MESSAGE →
        (CoAPNetworkDTLS_read c H p_session p_data p_datalen timeout w).1.1
            = c.COAP_ERROR_READ_FAILED ∧
        (CoAPNetworkDTLS_read c H p_session p_data p_datalen timeout w).2.trace
            = w.trace ++ [Event.HAL_DTLSSession_read p_session p_data p_datalen timeout] ∧
        (CoAPNetworkDTLS_read c H p_session p_data p_datalen timeout w).2.hal
            = (H.HAL_DTLSSession_read p_session p_data p_datalen timeout w.hal).2 ∧
        (CoAPNetworkDTLS_read c H p_session p_data p_datalen timeout w).2.net = w.net)) ∧
    (p_session = NULL →
      CoAPNetworkDTLS_read c H p_session p_data p_datalen timeout w
        = ((c.COAP_ERROR_INVALID_PARAM, p_data, p_datalen), w)) := by
  constructor
  · intro hs
    have hs1 : NULL ≠ p_session := fun h => hs h.symm
    simp only [CoAPNetworkDTLS_read, if_pos hs1, call_HAL_DTLSSession_read,
      CoAPNetworkDTLS_freeSession, call_HAL_DTLSSession_free]
    generalize (H.HAL_DTLSSession_read p_session p_data p_datalen timeout w.hal).1.1 = st
    refine ⟨?_, ?_, ?_⟩
    · rintro (h | h)
      · subst h
        simp [hclose.symm]
      · subst h
        simp [hfatal.symm]
    · intro h
      subst h
      simp [hclose, hfatal]
    · intro h0 h1 h2
      simp [Ne.symm h0, Ne.symm h1, Ne.symm h2]
  · intro hs
    subst hs
    simp [CoAPNetworkDTLS_read]

/-- Witness for C4: a session whose read reports PeerCloseNotify is freed once; the
environment that records the sessions it is asked to free has recorded exactly session 7. -/
theorem C4_secure_read_teardown_witness :
    sample_consts.DTLS_PEER_CLOSE_NOTIFY ≠ sample_consts.DTLS_SUCCESS ∧
    sample_consts.DTLS_FATAL_ALERT_MESSAGE ≠ sample_consts.DTLS_SUCCESS ∧
    (CoAPNetworkDTLS_read sample_consts (freeLogHAL 0x1000006) 7 [0, 0] 2 50
        (world_of [] ep_dtls)).2.trace
      = [] ++ [Event.HAL_DTLSSession_read 7 [0, 0] 2 50, Event.HAL_DTLSSession_free 7] ∧
    (CoAPNetworkDTLS_read sample_consts (freeLogHAL 0x1000006) 7 [0, 0] 2 50
        (world_of [] ep_dtls)).2.hal = [7] :=
  ⟨by decide, by decide,
   ((((C4_secure_read_teardown sample_consts (freeLogHAL 0x1000006) 7 [0, 0] 2 50
        (world_of [] ep_dtls) (by decide) (by decide)).1 (by decide)).1) (Or.inl rfl)).2.1,
   ((((C4_secure_read_teardown sample_consts (freeLogHAL 0x1000006) 7 [0, 0] 2 50
        (world_of [] ep_dtls) (by decide) (by decide)).1 (by decide)).1) (Or.inl rfl)).2.2.1⟩

/-- C6: CoAPNetwork_read on a buffer of capacity datalen zero-fills it before the read
primitive is called.  Every read primitive it calls observes the all-zero buffer; on the
datagram path and on the secure path with a session that is the one call made first; the
buffer handed back is what the transport left of that zero buffer (the zero buffer itself
when the session is null), so a transport that places no bytes leaves it all zero. -/
theorem C6_read_zero_fills {σ : Type} (c : Consts) (H : HAL σ) (network : Ptr)
    (data : List Nat) (datalen : Nat) (timeout : Nat) (w : World σ)
    (hcap : data.length = datalen) :
    (∀ e ∈ ((CoAPNetwork_read c H network data datalen timeout w).2.trace.drop w.trace.length),
      ∀ b, e.readBuffer = some b → b = List.replicate datalen 0) ∧
    (¬ (c.COAP_DTLS_SUPPORT = true ∧ COAP_ENDPOINT_DTLS = (w.net network).ep_type) →
      (CoAPNetwork_read c H network data datalen timeout w).2.trace
        = w.trace ++ [Event.HAL_UDP_readTimeout (w.net network).context
            (List.replicate datalen 0) c.COAP_MSG_MAX_PDU_LEN timeout] ∧
      (CoAPNetwork_read c H network data datalen timeout w).1.2
        = (H.HAL_UDP_readTimeout (w.net network).context (List.replicate datalen 0)
            c.COAP_MSG_MAX_PDU_LEN timeout w.hal).1.2 ∧
      ((H.HAL_UDP_readTimeout (w.net network).context (List.replicate datalen 0)
            c.COAP_MSG_MAX_PDU_LEN timeout w.hal).1.2 = List.replicate datalen 0 →
        (CoAPNetwork_read c H network data datalen timeout w).1.2
          = List.replicate datalen 0)) ∧
    ((c.COAP_DTLS_SUPPORT = true ∧ COAP_ENDPOINT_DTLS = (w.net network).ep_type) →
      ((w.net network).context ≠ NULL →
        w.trace ++ [Event.HAL_DTLSSession_read (w.net network).context
            (List.replicate datalen 0) datalen timeout]
          <+: (CoAPNetwork_read c H network data datalen timeout w).2.trace ∧
        (CoAPNetwork_read c H network data datalen timeout w).1.2
          = (H.HAL_DTLSSession_read (w.net network).context (List.replicate datalen 0)
              datalen timeout w.hal).1.2.1 ∧
        ((H.HAL_DTLSSession_read (w.net network).context (List.replicate datalen 0)
              datalen timeout w.hal).1.2.1 = List.replicate datalen 0 →
          (CoAPNetwork_read c H network data datalen timeout w).1.2
            = List.replicate datalen 0)) ∧
      ((w.net network).context = NULL →
        (CoAPNetwork_read c H network data datalen timeout w).2.trace = w.trace ∧
        (CoAPNetwork_read c H network data datalen timeout w).1.2
          = List.replicate datalen 0)) := by
  have hz := memset_zero_all data datalen hcap
  refine ⟨?_, ?_, ?_⟩
  · intro e he b hbuf
    by_cases hb : c.COAP_DTLS_SUPPORT = true ∧ COAP_ENDPOINT_DTLS = (w.net network).ep_type
    · rw [read_secure_eq c H network data datalen timeout w hb, hz] at he
      by_cases hn : (w.net network).context = NULL
      · rw [hn, dtls_read_null] at he
        simp at he
      · rw [dtls_read_trace c H _ _ _ _ w hn] at he
        simp only [List.drop_left, List.mem_cons] at he
        rcases he with he | he
        · subst he
          simp only [Event.readBuffer, Option.some.injEq] at hbuf
          exact hbuf.symm
        · split at he
          · simp only [List.mem_singleton] at he
            subst he
            simp [Event.readBuffer] at hbuf
          · simp at he
    · rw [read_insecure_eq c H network data datalen timeout w hb, hz] at he
      simp only [List.drop_left, List.mem_singleton] at he
      subst he
      simp only [Event.readBuffer, Option.some.injEq] at hbuf
      exact hbuf.symm
  · intro hb
    rw [read_insecure_eq c H network data datalen timeout w hb, hz]
    exact ⟨rfl, rfl, fun h => h⟩
  · intro hb
    rw [read_secure_eq c H network data datalen timeout w hb, hz]
    constructor
    · intro hn
      refine ⟨?_, ?_, ?_⟩
      · rw [dtls_read_trace c H _ _ _ _ w hn]
        exact ⟨_, (List.append_assoc _ _ _).trans rfl⟩
      · rw [dtls_read_out c H _ _ _ _ w hn]
      · rw [dtls_read_out c H _ _ _ _ w hn]
        exact fun h => h
    · intro hn
      rw [hn, dtls_read_null]
      exact ⟨rfl, rfl⟩

/-- Witness for C6: a stale two-byte buffer read on an Insecure endpoint comes back zero when
the transport places no bytes. -/
theorem C6_read_zero_fills_witness :
    ([9, 9] : List Nat).length = 2 ∧
    (CoAPNetwork_read sample_consts (stubHAL 3 0 0) 4096 [9, 9] 2 50
        (world_of () ep_nosec)).1.2 = [0, 0] :=
  ⟨rfl,
   ((C6_read_zero_fills sample_consts (stubHAL 3 0 0) 4096 [9, 9] 2 50 (world_of () ep_nosec)
      rfl).2.1 (by decide)).2.2 rfl⟩

/-- C9, as the claim states it, fails: after a CoAPNetwork_read during which the secure
transport reports PeerCloseNotify, session 7 has been freed, the endpoint still stores 7 as
its handle, and a later CoAPNetwork_read and a later CoAPNetwork_write both pass 7 to the
secure transport. -/
theorem C9_counterexample :
    world_after_peer_close.trace
      = [Event.HAL_DTLSSession_read 7 [0, 0] 2 50, Event.HAL_DTLSSession_free 7] ∧
    (world_after_peer_close.net 4096).context = 7 ∧
    (world_after_peer_close.net 4096).context ≠ NULL ∧
    (CoAPNetwork_read sample_consts (stubHAL 7 0 0x1000006) 4096 [9, 9] 2 50
        world_after_peer_close).2.trace
      = [Event.HAL_DTLSSession_read 7 [0, 0] 2 50, Event.HAL_DTLSSession_free 7,
         Event.HAL_DTLSSession_read 7 [0, 0] 2 50, Event.HAL_DTLSSession_free 7] ∧
    (CoAPNetwork_write sample_consts (stubHAL 7 0 0x1000006) 4096 [1, 2] 2
        world_after_peer_close).2.trace
      = [Event.HAL_DTLSSession_read 7 [0, 0] 2 50, Event.HAL_DTLSSession_free 7,
         Event.HAL_DTLSSession_write 7 [1, 2] 2] := by
  refine ⟨rfl, rfl, by decide, rfl, rfl⟩

/-- C9, amended: on a Secure endpoint with a session, a CoAPNetwork_read during which the
secure transport reports PeerCloseNotify or FatalAlertMessage frees the session exactly once
and changes no endpoint object: the stored handle is still the freed session.  A later
CoAPNetwork_read first passes that same session to the secure read, and a later
CoAPNetwork_write passes it to the secure write. -/
theorem C9_teardown_keeps_handle {σ : Type} (c : Consts) (H : HAL σ) (network : Ptr)
    (data : List Nat) (datalen : Nat) (timeout : Nat) (w : World σ)
    (hdtls : c.COAP_DTLS_SUPPORT = true)
    (hkind : (w.net network).ep_type = COAP_ENDPOINT_DTLS)
    (hctx : (w.net network).context ≠ NULL)
    (hst : (H.HAL_DTLSSession_read (w.net network).context (memset data 0 datalen) datalen
              timeout w.hal).1.1 = c.DTLS_PEER_CLOSE_NOTIFY ∨
           (H.HAL_DTLSSession_read (w.net network).context (memset data 0 datalen) datalen
              timeout w.hal).1.1 = c.DTLS_FATAL_ALERT_MESSAGE) :
    (CoAPNetwork_read c H network data datalen timeout w).2.trace
      = w.trace ++ [Event.HAL_DTLSSession_read (w.net network).context (memset data 0 datalen)
                      datalen timeout,
                    Event.HAL_DTLSSession_free (w.net network).context] ∧
    (CoAPNetwork_read c H network data datalen timeout w).2.net = w.net ∧
    ((CoAPNetwork_read c H network data datalen timeout w).2.net network).context
      = (w.net network).context ∧
    (∀ (data2 : List Nat) (datalen2 timeout2 : Nat),
      (CoAPNetwork_read c H network data datalen timeout w).2.trace
          ++ [Event.HAL_DTLSSession_read (w.net network).context (memset data2 0 datalen2)
                datalen2 timeout2]
        <+: (CoAPNetwork_read c H network data2 datalen2 timeout2
              (CoAPNetwork_read c H network data datalen timeout w).2).2.trace) ∧
    (∀ (p_data : List Nat) (n : Nat),
      (CoAPNetwork_write c H network p_data n
          (CoAPNetwork_read c H network data datalen timeout w).2).2.trace
        = (CoAPNetwork_read c H network data datalen timeout w).2.trace
            ++ [Event.HAL_DTLSSession_write (w.net network).context p_data n]) := by
  have hb : c.COAP_DTLS_SUPPORT = true ∧ COAP_ENDPOINT_DTLS = (w.net network).ep_type :=
    ⟨hdtls, hkind.symm⟩
  have hcond : c.DTLS_PEER_CLOSE_NOTIFY
        = (H.HAL_DTLSSession_read (w.net network).context (memset data 0 datalen) datalen
              timeout w.hal).1.1 ∨
      c.DTLS_FATAL_ALERT_MESSAGE
        = (H.HAL_DTLSSession_read (w.net network).context (memset data 0 datalen) datalen
              timeout w.hal).1.1 := hst.imp Eq.symm Eq.symm
  have hnet : (CoAPNetwork_read c H network data datalen timeout w).2.net = w.net := by
    rw [read_secure_eq c H network data datalen timeout w hb]
    exact dtls_read_net _ _ _ _ _ _ _
  have hb2 : c.COAP_DTLS_SUPPORT = true ∧ COAP_ENDPOINT_DTLS
      = ((CoAPNetwork_read c H network data datalen timeout w).2.net network).ep_type := by
    rw [hnet]; exact hb
  have hctx2 : ((CoAPNetwork_read c H network data datalen timeout w).2.net network).context
      ≠ NULL := by
    rw [hnet]; exact hctx
  refine ⟨?_, hnet, by rw [hnet], ?_, ?_⟩
  · rw [read_secure_eq c H network data datalen timeout w hb,
      dtls_read_trace c H _ _ _ _ w hctx, if_pos hcond]
  · intro data2 datalen2 timeout2
    rw [read_secure_eq c H network data2 datalen2 timeout2 _ hb2,
      dtls_read_trace c H _ _ _ _ _ hctx2]
    rw [hnet]
    exact ⟨_, (List.append_assoc _ _ _).trans rfl⟩
  · intro p_data n
    rw [write_secure_trace c H network p_data n _ hb2 hctx2, hnet]

/-- Witness for C9 amended: the stub transport reporting PeerCloseNotify on session 7. -/
theorem C9_teardown_keeps_handle_witness :
    sample_consts.COAP_DTLS_SUPPORT = true ∧
    ((world_of () ep_dtls).net 4096).ep_type = COAP_ENDPOINT_DTLS ∧
    ((world_of () ep_dtls).net 4096).context ≠ NULL ∧
    ((CoAPNetwork_read sample_consts (stubHAL 7 0 0x1000006) 4096 [9, 9] 2 50
        (world_of () ep_dtls)).2.net 4096).context = ((world_of () ep_dtls).net 4096).context :=
  ⟨rfl, rfl, by decide,
   (C9_teardown_keeps_handle sample_consts (stubHAL 7 0 0x1000006) 4096 [9, 9] 2 50
      (world_of () ep_dtls) rfl rfl (by decide) (Or.inl rfl)).2.2.1⟩

/-- C10, as the claim states it, fails: on an Insecure endpoint whose datagram read returns -1,
CoAPNetwork_read returns -1; on a Secure endpoint with a null session and capacity 2^31 it
returns -2^31. -/
theorem C10_counterexample :
    (CoAPNetwork_read sample_consts (stubHAL 3 (-1) 0) 4096 [9, 9] 2 50
        (world_of () ep_nosec)).1.1 = -1 ∧
    ¬ (0 ≤ (CoAPNetwork_read sample_consts (stubHAL 3 (-1) 0) 4096 [9, 9] 2 50
        (world_of () ep_nosec)).1.1) ∧
    (CoAPNetwork_read sample_consts (stubHAL 7 0 0) 4096 (List.replicate 2147483648 9)
        2147483648 50 (world_of () ep_dtls_null)).1.1 = -2147483648 := by
  refine ⟨by decide, by decide, by decide⟩

/-- C10, amended: the value CoAPNetwork_read returns is the 32-bit unsigned count read as a
two-complement int, and it is non-negative exactly when that count is below 2^31.  On the
datagram path the count is the signed result of the datagram read, so the value returned
is that result itself when it fits an int: negative results come back negative.  On the secure
path the count is the in/out length the adapter left: what the secure read stored when there
is a session, the buffer capacity when the session is null. -/
theorem C10_read_result_signed {σ : Type} (c : Consts) (H : HAL σ) (network : Ptr)
    (data : List Nat) (datalen : Nat) (timeout : Nat) (w : World σ) :
    (¬ (c.COAP_DTLS_SUPPORT = true ∧ COAP_ENDPOINT_DTLS = (w.net network).ep_type) →
      (CoAPNetwork_read c H network data datalen timeout w).1.1
        = to_int (to_uint (H.HAL_UDP_readTimeout (w.net network).context
            (memset data 0 datalen) c.COAP_MSG_MAX_PDU_LEN timeout w.hal).1.1) ∧
      (-(2 ^ 31) ≤ (H.HAL_UDP_readTimeout (w.net network).context
            (memset data 0 datalen) c.COAP_MSG_MAX_PDU_LEN timeout w.hal).1.1 →
        (H.HAL_UDP_readTimeout (w.net network).context
            (memset data 0 datalen) c.COAP_MSG_MAX_PDU_LEN timeout w.hal).1.1 < 2 ^ 31 →
        (CoAPNetwork_read c H network data datalen timeout w).1.1
          = (H.HAL_UDP_readTimeout (w.net network).context
              (memset data 0 datalen) c.COAP_MSG_MAX_PDU_LEN timeout w.hal).1.1) ∧
      (0 ≤ (CoAPNetwork_read c H network data datalen timeout w).1.1 ↔
        to_uint (H.HAL_UDP_readTimeout (w.net network).context
            (memset data 0 datalen) c.COAP_MSG_MAX_PDU_LEN timeout w.hal).1.1 < 2 ^ 31)) ∧
    ((c.COAP_DTLS_SUPPORT = true ∧ COAP_ENDPOINT_DTLS = (w.net network).ep_type) →
      ((w.net network).context ≠ NULL →
        (CoAPNetwork_read c H network data datalen timeout w).1.1
          = to_int (H.HAL_DTLSSession_read (w.net network).context (memset data 0 datalen)
              datalen timeout w.hal).1.2.2 ∧
        (0 ≤ (CoAPNetwork_read c H network data datalen timeout w).1.1 ↔
          (H.HAL_DTLSSession_read (w.net network).context (memset data 0 datalen)
              datalen timeout w.hal).1.2.2 % 2 ^ 32 < 2 ^ 31)) ∧
      ((w.net network).context = NULL →
        (CoAPNetwork_read c H network data datalen timeout w).1.1 = to_int datalen ∧
        (0 ≤ (CoAPNetwork_read c H network data datalen timeout w).1.1 ↔
          datalen % 2 ^ 32 < 2 ^ 31))) := by
  constructor
  · intro hb
    rw [read_insecure_eq c H network data datalen timeout w hb]
    refine ⟨rfl, fun hlo hhi => to_int_to_uint _ hlo hhi, ?_⟩
    rw [to_int_nonneg_iff]
    have hlt : to_uint (H.HAL_UDP_readTimeout (w.net network).context
            (memset data 0 datalen) c.COAP_MSG_MAX_PDU_LEN timeout w.hal).1.1 < 2 ^ 32 := by
      unfold to_uint; omega
    rw [Nat.mod_eq_of_lt hlt]
  · intro hb
    rw [read_secure_eq c H network data datalen timeout w hb]
    constructor
    · intro hn
      rw [dtls_read_out c H _ _ _ _ w hn]
      exact ⟨rfl, to_int_nonneg_iff _⟩
    · intro hn
      rw [hn, dtls_read_null]
      exact ⟨rfl, to_int_nonneg_iff _⟩

/-- C5, evaluated on the counting fake transport: Insecure init on the endpoint at address
4096 followed by deinit.  Both return Success and create hands out the handle 3, which init
stores in the endpoint; deinit passes the address of the socket_id member, 4096, to the
close primitive (and the address of the context member, 4104, to the session free), so the
handle 3 is never closed and is still open at the end. -/
theorem C5_deinit_closes_member_address :
    (init_then_deinit sample_consts fakeHAL param_host_5683 4096
        (world_of fake_fresh ep_nosec)).1 = sample_consts.COAP_SUCCESS ∧
    (init_then_deinit sample_consts fakeHAL param_host_5683 4096
        (world_of fake_fresh ep_nosec)).2.1 = sample_consts.COAP_SUCCESS ∧
    (init_then_deinit sample_consts fakeHAL param_host_5683 4096
        (world_of fake_fresh ep_nosec)).2.2.trace
      = [Event.HAL_UDP_create (some "host") 5683, Event.HAL_UDP_close 4096,
         Event.HAL_DTLSSession_free 4104] ∧
    ((init_then_deinit sample_consts fakeHAL param_host_5683 4096
        (world_of fake_fresh ep_nosec)).2.2.net 4096).context = 3 ∧
    Event.HAL_UDP_close 3 ∉ (init_then_deinit sample_consts fakeHAL param_host_5683 4096
        (world_of fake_fresh ep_nosec)).2.2.trace ∧
    (init_then_deinit sample_consts fakeHAL param_host_5683 4096
        (world_of fake_fresh ep_nosec)).2.2.hal.open_sockets = [3] := by
  refine ⟨rfl, rfl, rfl, rfl, by decide, rfl⟩

/-- C8: over the echoing fake datagram transport, for every byte string d no longer than the
maximum PDU size and every buffer of capacity at least the maximum PDU size, Insecure init
returns Success, CoAPNetwork_write of d returns Success, and the following CoAPNetwork_read
returns the length of d and leaves d at the front of the buffer and zero in the rest. -/
theorem C8_round_trip (c : Consts) (param : coap_network_init_t) (p_network : Ptr)
    (d : List Nat) (buf : List Nat) (timeout : Nat) (w : World FakeState)
    (hkind : param.ep_type = COAP_ENDPOINT_NOSEC)
    (hp : p_network ≠ NULL)
    (hsock : w.hal.next_socket ≠ PTR_MINUS_ONE)
    (hlen : d.length ≤ c.COAP_MSG_MAX_PDU_LEN)
    (hcap : c.COAP_MSG_MAX_PDU_LEN ≤ buf.length)
    (hmax : c.COAP_MSG_MAX_PDU_LEN < 2 ^ 31)
    (hfit : c.COAP_SUCCESS < 2 ^ 32) :
    init_write_read c fakeHAL param p_network d buf timeout w
      = (c.COAP_SUCCESS, c.COAP_SUCCESS, (d.length : Int),
         d ++ List.replicate (buf.length - d.length) 0) ∧
    (init_write_read c fakeHAL param p_network d buf timeout w).2.2.2.length = buf.length := by
  suffices hmain : init_write_read c fakeHAL param p_network d buf timeout w
      = (c.COAP_SUCCESS, c.COAP_SUCCESS, (d.length : Int),
         d ++ List.replicate (buf.length - d.length) 0) by
    refine ⟨hmain, ?_⟩
    rw [hmain]
    simp only [List.length_append, List.length_replicate]
    omega
  have hs1 : ¬ (PTR_MINUS_ONE = (fakeHAL.HAL_UDP_create param.p_host param.port w.hal).1) :=
    fun h => hsock h.symm
  have hinit := init_insecure_eq c fakeHAL param p_network w hp hkind
  rw [if_neg hs1] at hinit
  have hb2 : ∀ (w2 : World FakeState),
      (w2.net p_network).ep_type = COAP_ENDPOINT_NOSEC →
      ¬ (c.COAP_DTLS_SUPPORT = true ∧ COAP_ENDPOINT_DTLS = (w2.net p_network).ep_type) := by
    intro w2 h2
    rw [h2]; rintro ⟨_, h⟩; cases h
  have hw : ¬ ((-1 : Int) = ((d.length : Nat) : Int)) := by omega
  have hr : to_int (to_uint ((d.length : Nat) : Int)) = ((d.length : Nat) : Int) :=
    to_int_to_uint _ (by omega) (by omega)
  unfold init_write_read
  rw [hinit]
  dsimp only
  rw [write_insecure_eq c fakeHAL p_network d d.length _
    (hb2 _ (by simp only [Function.update_same]))]
  dsimp only
  rw [read_insecure_eq c fakeHAL p_network buf buf.length timeout _
    (hb2 _ (by simp only [Function.update_same]))]
  simp only [fakeHAL, List.take_length, if_neg hw, to_uint_to_int _ hfit, memset,
    List.take_of_length_le hlen, hr, List.drop_length, List.append_nil, List.drop_replicate]

/-- Witness for C8: the instance of the spec, "ping" to host "host" on port 5683, read into
a buffer of 1280 stale bytes. -/
theorem C8_round_trip_witness :
    param_host_5683.ep_type = COAP_ENDPOINT_NOSEC ∧ (4096 : Ptr) ≠ NULL ∧
    (world_of fake_fresh ep_dtls).hal.next_socket ≠ PTR_MINUS_ONE ∧
    ([112, 105, 110, 103] : List Nat).length ≤ sample_consts.COAP_MSG_MAX_PDU_LEN ∧
    sample_consts.COAP_MSG_MAX_PDU_LEN ≤ (List.replicate 1280 255).length ∧
    sample_consts.COAP_MSG_MAX_PDU_LEN < 2 ^ 31 ∧ sample_consts.COAP_SUCCESS < 2 ^ 32 ∧
    init_write_read sample_consts fakeHAL param_host_5683 4096 [112, 105, 110, 103]
        (List.replicate 1280 255) 5000 (world_of fake_fresh ep_dtls)
      = (sample_consts.COAP_SUCCESS, sample_consts.COAP_SUCCESS,
         (([112, 105, 110, 103] : List Nat).length : Int),
         [112, 105, 110, 103] ++ List.replicate
           ((List.replicate 1280 255).length - ([112, 105, 110, 103] : List Nat).length) 0) :=
  ⟨rfl, by decide, by decide, by decide, by rw [List.length_replicate]; decide, by decide,
   by decide,
   (C8_round_trip sample_consts param_host_5683 4096 [112, 105, 110, 103]
     (List.replicate 1280 255) 5000 (world_of fake_fresh ep_dtls)
     rfl (by decide) (by decide) (by decide) (by rw [List.length_replicate]; decide)
     (by decide) (by decide)).1⟩

end CoAPNetwork
